import Mathlib

/-!
Verification of the flash-memory layout header `memory.h` (standalone
firmware, no bootloader).  The header defines compile-time constants for
the flash layout of the target MCU (an STM32-style part with 12 erase
sectors over 1 MiB starting at 0x08000000), an address-translation macro
`FLASH_PTR` with an emulated and a direct (hardware) variant, a build-time
check that the firmware start address equals the flash origin, and two
inline volatile write helpers `flash_write32` / `flash_write8`.

The shallow embedding below mirrors the header: each `#define` constant
becomes a Lean `def` with the same name; the sector table drawn in the
header comment becomes a list of (first byte, last byte) address pairs;
the two variants of `FLASH_PTR` become functions on `Nat` addresses
(pointer values are modelled as natural numbers, with the C `uint32_t`
subtraction in the emulator variant made explicit modulo 2^32); the two
write helpers become functions on a byte-addressed memory `Nat → Nat`,
with the 32-bit store expanded into its little-endian byte effect, as
performed by the little-endian target.
-/

/-- `#define FLASH_ORIGIN 0x08000000` -/
def FLASH_ORIGIN : Nat := 0x08000000

/-- `#define FLASH_TOTAL_SIZE (1024 * 1024)` -/
def FLASH_TOTAL_SIZE : Nat := 1024 * 1024

/-- The sector table from the header comment: each entry is the inclusive
address range `(first byte, last byte)` of one physical erase sector,
sectors 0 through 11 in order. -/
def sectorTable : List (Nat × Nat) :=
  [ (0x08000000, 0x08003FFF)
  , (0x08004000, 0x08007FFF)
  , (0x08008000, 0x0800BFFF)
  , (0x0800C000, 0x0800FFFF)
  , (0x08010000, 0x0801FFFF)
  , (0x08020000, 0x0803FFFF)
  , (0x08040000, 0x0805FFFF)
  , (0x08060000, 0x0807FFFF)
  , (0x08080000, 0x0809FFFF)
  , (0x080A0000, 0x080BFFFF)
  , (0x080C0000, 0x080DFFFF)
  , (0x080E0000, 0x080FFFFF) ]

/-- Size in bytes of a sector given by its inclusive address range. -/
def sectorSize (s : Nat × Nat) : Nat := s.2 + 1 - s.1

/-- A list of inclusive address ranges is contiguous when each range
starts exactly one byte past the end of the previous one. -/
def contiguousRanges : List (Nat × Nat) → Bool
  | [] => true
  | [_] => true
  | a :: b :: rest => (b.1 = a.2 + 1) && contiguousRanges (b :: rest)

/-- `#define FLASH_APP_START 0x08000000` -/
def FLASH_APP_START : Nat := 0x08000000

/-- `#define FLASH_APP_LEN FLASH_TOTAL_SIZE` -/
def FLASH_APP_LEN : Nat := FLASH_TOTAL_SIZE

/-- The build-time safety guard
`#if FLASH_APP_START != 0x08000000 / #error ... / #endif`:
a configuration compiles exactly when the firmware start address equals
0x08000000. -/
def appStartGuardPasses (appStart : Nat) : Bool := appStart == 0x08000000

/-- `#define FLASH_BOOT_START FLASH_ORIGIN` -/
def FLASH_BOOT_START : Nat := FLASH_ORIGIN

/-- `#define FLASH_BOOT_LEN 0x0000` -/
def FLASH_BOOT_LEN : Nat := 0x0000

/-- `#define FLASH_STORAGE_START FLASH_ORIGIN` -/
def FLASH_STORAGE_START : Nat := FLASH_ORIGIN

/-- `#define FLASH_STORAGE_LEN 0x0000` -/
def FLASH_STORAGE_LEN : Nat := 0x0000

/-- `#define FLASH_FWHEADER_START FLASH_APP_START` -/
def FLASH_FWHEADER_START : Nat := FLASH_APP_START

/-- `#define FLASH_FWHEADER_LEN 0x0000` -/
def FLASH_FWHEADER_LEN : Nat := 0x0000

/-- `#define FLASH_BOOT_SECTOR_FIRST 0` -/
def FLASH_BOOT_SECTOR_FIRST : Nat := 0

/-- `#define FLASH_BOOT_SECTOR_LAST 0` -/
def FLASH_BOOT_SECTOR_LAST : Nat := 0

/-- `#define FLASH_STORAGE_SECTOR_FIRST 0` -/
def FLASH_STORAGE_SECTOR_FIRST : Nat := 0

/-- `#define FLASH_STORAGE_SECTOR_LAST 0` -/
def FLASH_STORAGE_SECTOR_LAST : Nat := 0

/-- `#define FLASH_CODE_SECTOR_FIRST 0` -/
def FLASH_CODE_SECTOR_FIRST : Nat := 0

/-- `#define FLASH_CODE_SECTOR_LAST 11` -/
def FLASH_CODE_SECTOR_LAST : Nat := 11

/-- Emulated variant of the translation macro,
`#define FLASH_PTR(x) (emulator_flash_base + ((x) - FLASH_ORIGIN))`.
`emulator_flash_base` is the current value of the mutable base pointer at
the moment of the call, passed explicitly; the C subtraction of the two
`uint32_t` values wraps modulo 2^32, made explicit here. -/
def FLASH_PTR_emul (emulator_flash_base x : Nat) : Nat :=
  emulator_flash_base + (x + 2 ^ 32 - FLASH_ORIGIN) % 2 ^ 32

/-- Direct (hardware) variant of the translation macro,
`#define FLASH_PTR(x) ((const uint8_t *)(x))`: the address value is the
pointer value. -/
def FLASH_PTR_hw (x : Nat) : Nat := x

/-- Byte-addressed memory: pointer value to byte stored there. -/
def Mem : Type := Nat → Nat

/-- `flash_write32(addr, word)`: `*(volatile uint32_t *)FLASH_PTR(addr) = word;`
in the direct (hardware) environment.  On the little-endian target the
32-bit store places byte `i` of the word (bits `8*i .. 8*i+7`) at pointer
`FLASH_PTR(addr) + i`, for `i` in `0..3`. -/
def flash_write32 (m : Mem) (addr word : Nat) : Mem := fun q =>
  if q = FLASH_PTR_hw addr then word % 256
  else if q = FLASH_PTR_hw addr + 1 then word / 256 % 256
  else if q = FLASH_PTR_hw addr + 2 then word / 65536 % 256
  else if q = FLASH_PTR_hw addr + 3 then word / 16777216 % 256
  else m q

/-- `flash_write8(addr, byte)`: `*(volatile uint8_t *)FLASH_PTR(addr) = byte;`
in the direct (hardware) environment: stores the single byte at
`FLASH_PTR(addr)`. -/
def flash_write8 (m : Mem) (addr byte : Nat) : Mem := fun q =>
  if q = FLASH_PTR_hw addr then byte % 256
  else m q

/-- A 32-bit little-endian read at pointer `p`: byte at `p` is the least
significant. -/
def read32LE (m : Mem) (p : Nat) : Nat :=
  m p % 256 + 256 * (m (p + 1) % 256) + 65536 * (m (p + 2) % 256) +
    16777216 * (m (p + 3) % 256)

/-- The all-zero memory, used as a concrete starting state. -/
def zeroMem : Mem := fun _ => 0

/-- C1: the declared sector table has exactly 12 sectors, of sizes
4×16 KiB then 1×64 KiB then 7×128 KiB, summing to `FLASH_TOTAL_SIZE`
(1 MiB); the ranges are contiguous starting at `FLASH_ORIGIN` with no
gaps or overlaps (each sector starts one byte past the previous sector's
end), and the last sector ends at 0x080FFFFF. -/
theorem sectorTable_layout :
    sectorTable.length = 12 ∧
    sectorTable.map sectorSize =
      [16384, 16384, 16384, 16384, 65536,
       131072, 131072, 131072, 131072, 131072, 131072, 131072] ∧
    (sectorTable.map sectorSize).sum = FLASH_TOTAL_SIZE ∧
    sectorTable.head? = some (FLASH_ORIGIN, 0x08003FFF) ∧
    contiguousRanges sectorTable = true ∧
    sectorTable.getLast? = some (0x080E0000, 0x080FFFFF) := by
  refine ⟨?_, ?_, ?_, ?_, ?_, ?_⟩ <;> decide

/-- C2: `FLASH_APP_START` equals `FLASH_ORIGIN` (both 0x08000000), the
build-time guard passes for the declared value (so the `#error` branch is
unreachable), and any configuration whose firmware start address differs
from 0x08000000 fails the guard (fails to compile). -/
theorem appStart_guard (s : Nat) (hs : s ≠ 0x08000000) :
    FLASH_APP_START = FLASH_ORIGIN ∧
    FLASH_APP_START = 0x08000000 ∧
    appStartGuardPasses FLASH_APP_START = true ∧
    appStartGuardPasses s = false := by
  refine ⟨by decide, by decide, by decide, ?_⟩
  simp [appStartGuardPasses, hs]

/-- Witness for C2 at the concrete deviating start address 0x08000004. -/
theorem appStart_guard_witness :
    (0x08000004 : Nat) ≠ 0x08000000 ∧
    (FLASH_APP_START = FLASH_ORIGIN ∧
     FLASH_APP_START = 0x08000000 ∧
     appStartGuardPasses FLASH_APP_START = true ∧
     appStartGuardPasses 0x08000004 = false) :=
  ⟨by decide, appStart_guard 0x08000004 (by decide)⟩

/-- C3: in the emulated environment the translation is computed from the
base value current at the call: for any base `b` and flash address `x`
(at or above the origin, representable in 32 bits), `FLASH_PTR(x)` is
`b + (x - FLASH_ORIGIN)`; nothing is cached, so two calls at the same
`x` with bases `b₁` and `b₂` give results differing by exactly the
change in the base. -/
theorem FLASH_PTR_emul_uses_current_base (b x : Nat)
    (hx : FLASH_ORIGIN ≤ x) (hx32 : x < 2 ^ 32) :
    FLASH_PTR_emul b x = b + (x - FLASH_ORIGIN) ∧
    ∀ b₁ b₂ : Nat,
      (FLASH_PTR_emul b₂ x : Int) - (FLASH_PTR_emul b₁ x : Int) =
        (b₂ : Int) - (b₁ : Int) := by
  have hpow : (2 : Nat) ^ 32 = 4294967296 := by norm_num
  have hmod : (x + 2 ^ 32 - FLASH_ORIGIN) % 2 ^ 32 = x - FLASH_ORIGIN := by
    rw [hpow]
    simp only [FLASH_ORIGIN] at hx ⊢
    omega
  constructor
  · rw [FLASH_PTR_emul, hmod]
  · intro b₁ b₂
    simp only [FLASH_PTR_emul]
    push_cast
    ring

/-- Witness for C3 at base 1000, flash address 0x08000010, and the base
change from 5 to 12. -/
theorem FLASH_PTR_emul_uses_current_base_witness :
    FLASH_ORIGIN ≤ 0x08000010 ∧ (0x08000010 : Nat) < 2 ^ 32 ∧
    (FLASH_PTR_emul 1000 0x08000010 = 1000 + (0x08000010 - FLASH_ORIGIN) ∧
     ∀ b₁ b₂ : Nat,
       (FLASH_PTR_emul b₂ 0x08000010 : Int) -
         (FLASH_PTR_emul b₁ 0x08000010 : Int) = (b₂ : Int) - (b₁ : Int)) :=
  ⟨by decide, by decide,
   FLASH_PTR_emul_uses_current_base 1000 0x08000010 (by decide) (by decide)⟩

/-- C4: translation applied to the flash origin yields the base of the
emulated buffer in the emulated environment, and the raw address value
0x08000000 in the direct (hardware) environment. -/
theorem FLASH_PTR_at_origin (b : Nat) :
    FLASH_PTR_emul b FLASH_ORIGIN = b ∧
    FLASH_PTR_hw FLASH_ORIGIN = 0x08000000 := by
  constructor
  · simp only [FLASH_PTR_emul]
    norm_num
  · decide

/-- C5: for a word-aligned in-bounds flash address `a` and 32-bit word
`w`, `flash_write32(a, w)` followed by a 32-bit read at `a` observes
exactly `w`, and the word is stored little-endian: the byte at `a + i`
is bits `8*i .. 8*i+7` of `w` for `i` in `0..3`. -/
theorem flash_write32_readback (m : Mem) (a w : Nat)
    (hal : a % 4 = 0) (hlo : FLASH_ORIGIN ≤ a)
    (hhi : a + 3 < FLASH_ORIGIN + FLASH_TOTAL_SIZE) (hw : w < 2 ^ 32) :
    read32LE (flash_write32 m a w) a = w ∧
    flash_write32 m a w a = w % 256 ∧
    flash_write32 m a w (a + 1) = w / 256 % 256 ∧
    flash_write32 m a w (a + 2) = w / 65536 % 256 ∧
    flash_write32 m a w (a + 3) = w / 16777216 % 256 := by
  have h0 : flash_write32 m a w a = w % 256 := by
    simp [flash_write32, FLASH_PTR_hw]
  have h1 : flash_write32 m a w (a + 1) = w / 256 % 256 := by
    simp only [flash_write32, FLASH_PTR_hw]
    rw [if_neg (by omega)]
    simp
  have h2 : flash_write32 m a w (a + 2) = w / 65536 % 256 := by
    simp only [flash_write32, FLASH_PTR_hw]
    rw [if_neg (by omega), if_neg (by omega)]
    simp
  have h3 : flash_write32 m a w (a + 3) = w / 16777216 % 256 := by
    simp only [flash_write32, FLASH_PTR_hw]
    rw [if_neg (by omega), if_neg (by omega), if_neg (by omega)]
    simp
  refine ⟨?_, h0, h1, h2, h3⟩
  rw [read32LE, h0, h1, h2, h3]
  have hp : (2 : Nat) ^ 32 = 4294967296 := by norm_num
  rw [hp] at hw
  omega

/-- Witness for C5 at address 0x08000000 and word 0x11223344 on the
all-zero memory. -/
theorem flash_write32_readback_witness :
    (0x08000000 : Nat) % 4 = 0 ∧ FLASH_ORIGIN ≤ 0x08000000 ∧
    (0x08000000 : Nat) + 3 < FLASH_ORIGIN + FLASH_TOTAL_SIZE ∧
    (0x11223344 : Nat) < 2 ^ 32 ∧
    (read32LE (flash_write32 zeroMem 0x08000000 0x11223344) 0x08000000 =
       0x11223344 ∧
     flash_write32 zeroMem 0x08000000 0x11223344 0x08000000 =
       0x11223344 % 256 ∧
     flash_write32 zeroMem 0x08000000 0x11223344 (0x08000000 + 1) =
       0x11223344 / 256 % 256 ∧
     flash_write32 zeroMem 0x08000000 0x11223344 (0x08000000 + 2) =
       0x11223344 / 65536 % 256 ∧
     flash_write32 zeroMem 0x08000000 0x11223344 (0x08000000 + 3) =
       0x11223344 / 16777216 % 256) :=
  ⟨by decide, by decide, by decide, by decide,
   flash_write32_readback zeroMem 0x08000000 0x11223344
     (by decide) (by decide) (by decide) (by decide)⟩

/-- C6: for an in-bounds flash address `a` and byte `b`,
`flash_write8(a, b)` changes only the byte at `a`: every other address,
in particular the adjacent `a - 1` and `a + 1`, is unchanged. -/
theorem flash_write8_frame (m : Mem) (a b : Nat)
    (hlo : FLASH_ORIGIN ≤ a) (hhi : a < FLASH_ORIGIN + FLASH_TOTAL_SIZE)
    (hb : b < 256) :
    (∀ q : Nat, q ≠ a → flash_write8 m a b q = m q) ∧
    flash_write8 m a b (a - 1) = m (a - 1) ∧
    flash_write8 m a b (a + 1) = m (a + 1) := by
  have hall : ∀ q : Nat, q ≠ a → flash_write8 m a b q = m q := by
    intro q hq
    simp only [flash_write8, FLASH_PTR_hw]
    rw [if_neg hq]
  have hor : FLASH_ORIGIN = 0x08000000 := rfl
  exact ⟨hall, hall (a - 1) (by omega), hall (a + 1) (by omega)⟩

/-- Witness for C6 at address 0x08000100 and byte 0xAB on the all-zero
memory, checked at the adjacent addresses. -/
theorem flash_write8_frame_witness :
    FLASH_ORIGIN ≤ 0x08000100 ∧
    (0x08000100 : Nat) < FLASH_ORIGIN + FLASH_TOTAL_SIZE ∧
    (0xAB : Nat) < 256 ∧
    ((∀ q : Nat, q ≠ 0x08000100 →
        flash_write8 zeroMem 0x08000100 0xAB q = zeroMem q) ∧
     flash_write8 zeroMem 0x08000100 0xAB (0x08000100 - 1) =
       zeroMem (0x08000100 - 1) ∧
     flash_write8 zeroMem 0x08000100 0xAB (0x08000100 + 1) =
       zeroMem (0x08000100 + 1)) :=
  ⟨by decide, by decide, by decide,
   flash_write8_frame zeroMem 0x08000100 0xAB
     (by decide) (by decide) (by decide)⟩

/-- C7: the legacy boot and storage regions both start at the flash
origin and have length exactly zero. -/
theorem legacy_regions_zero_length :
    FLASH_BOOT_START = FLASH_ORIGIN ∧
    FLASH_STORAGE_START = FLASH_ORIGIN ∧
    FLASH_BOOT_LEN = 0 ∧
    FLASH_STORAGE_LEN = 0 := by
  decide

/-- C8: the firmware/code region covers the entire flash
(`FLASH_APP_START` at the origin, `FLASH_APP_LEN` the full 1 MiB), the
code sector range is 0 .. 11, and every declared region (firmware, boot,
storage) stays within `FLASH_ORIGIN + FLASH_TOTAL_SIZE`. -/
theorem app_region_covers_flash :
    FLASH_APP_START = FLASH_ORIGIN ∧
    FLASH_APP_LEN = FLASH_TOTAL_SIZE ∧
    FLASH_APP_LEN = 1024 * 1024 ∧
    FLASH_CODE_SECTOR_FIRST = 0 ∧
    FLASH_CODE_SECTOR_LAST = 11 ∧
    FLASH_APP_START + FLASH_APP_LEN ≤ FLASH_ORIGIN + FLASH_TOTAL_SIZE ∧
    FLASH_BOOT_START + FLASH_BOOT_LEN ≤ FLASH_ORIGIN + FLASH_TOTAL_SIZE ∧
    FLASH_STORAGE_START + FLASH_STORAGE_LEN ≤
      FLASH_ORIGIN + FLASH_TOTAL_SIZE := by
  decide

/-- C9: for a word-aligned in-bounds flash address `a` and 32-bit word
`w`, `flash_write32(a, w)` changes only the four bytes at addresses
`a .. a + 3`: every address outside that window is unchanged. -/
theorem flash_write32_frame (m : Mem) (a w : Nat)
    (hal : a % 4 = 0) (hlo : FLASH_ORIGIN ≤ a)
    (hhi : a + 3 < FLASH_ORIGIN + FLASH_TOTAL_SIZE) (hw : w < 2 ^ 32) :
    ∀ q : Nat, q < a ∨ a + 3 < q → flash_write32 m a w q = m q := by
  intro q hq
  simp only [flash_write32, FLASH_PTR_hw]
  rw [if_neg (by omega), if_neg (by omega), if_neg (by omega),
    if_neg (by omega)]

/-- Witness for C9 at address 0x08000004, word 0xDEADBEEF, checked at
the addresses just outside the written window. -/
theorem flash_write32_frame_witness :
    (0x08000004 : Nat) % 4 = 0 ∧ FLASH_ORIGIN ≤ 0x08000004 ∧
    (0x08000004 : Nat) + 3 < FLASH_ORIGIN + FLASH_TOTAL_SIZE ∧
    (0xDEADBEEF : Nat) < 2 ^ 32 ∧
    ((0x08000003 : Nat) < 0x08000004 ∨ (0x08000004 : Nat) + 3 < 0x08000003) ∧
    flash_write32 zeroMem 0x08000004 0xDEADBEEF 0x08000003 =
      zeroMem 0x08000003 :=
  ⟨by decide, by decide, by decide, by decide, by decide,
   flash_write32_frame zeroMem 0x08000004 0xDEADBEEF
     (by decide) (by decide) (by decide) (by decide)
     0x08000003 (by decide)⟩

/-- C10: the header also defines a firmware-header region, starting at
`FLASH_APP_START` with length exactly zero, and the legacy boot and
storage sector index ranges are both 0 .. 0: they alias sector 0, which
lies inside the code sector range 0 .. 11. -/
theorem fwheader_and_legacy_sector_ranges :
    FLASH_FWHEADER_START = FLASH_APP_START ∧
    FLASH_FWHEADER_LEN = 0 ∧
    FLASH_BOOT_SECTOR_FIRST = 0 ∧ FLASH_BOOT_SECTOR_LAST = 0 ∧
    FLASH_STORAGE_SECTOR_FIRST = 0 ∧ FLASH_STORAGE_SECTOR_LAST = 0 ∧
    FLASH_CODE_SECTOR_FIRST ≤ FLASH_BOOT_SECTOR_FIRST ∧
    FLASH_BOOT_SECTOR_LAST ≤ FLASH_CODE_SECTOR_LAST ∧
    FLASH_CODE_SECTOR_FIRST ≤ FLASH_STORAGE_SECTOR_FIRST ∧
    FLASH_STORAGE_SECTOR_LAST ≤ FLASH_CODE_SECTOR_LAST := by
  decide
